import Mathlib

/-!
Verification of the `rpov` ray tracer core (a Whitted-style recursive ray
tracer) against its natural-language specification.

Shallow embedding conventions:
* The Rust `Float` type is modelled as `ℚ`; `Float::sqrt` is modelled by
  `Rat.sqrt` (exact on perfect squares, which covers every square root any
  concrete scenario below evaluates).
* Panics (`assert!`, `expect`, `unwrap`) in code paths that a claim is about
  are modelled with `Except` and the `Fault` type; the recursion-fuel
  exhaustion of the depth-bounded shader is modelled by `Fault.diverged`.
* Rust references `&dyn Shape` compared by `is_same_shape` (pointer equality)
  are modelled by a `ShapeRef` record carrying an `addr : Nat` field: distinct
  objects in a scene get distinct addresses, and two references to the same
  object share one.
* The thread-local recursion-depth counter `RECURSION_DEPTH` is modelled by
  explicit state passing: functions that read or write it take the current
  counter value and return the final one.

Definitions are transcribed from `src/rpov/src/*.rs`.  A few parts of the
crate exist in the snapshot only through their callers and tests (the
seven-argument `lighting`, `schlick`, `COLOR_BLACK`, and the
reflective/transparency/refractive-index fields of `Material`); those are
modelled from the specification and carry a doc comment starting with
`Modelled from the spec:`.
-/

/-- Square-root model for the Rust `Float::sqrt`: exact on perfect squares. -/
def sqrtQ (q : ℚ) : ℚ := Rat.sqrt q

/-- `floats.rs`: `EPSILON = 0.0015` (the acne-avoidance epsilon). -/
def EPSILON : ℚ := 15 / 10000

/-- `colors.rs`: an RGB color of floats. -/
@[ext] structure Color where
  red : ℚ
  green : ℚ
  blue : ℚ
  deriving DecidableEq

/-- `colors.rs`: `Color::new`. -/
def Color.new (red green blue : ℚ) : Color := ⟨red, green, blue⟩

/-- `colors.rs`: componentwise addition. -/
def Color.add (a b : Color) : Color := ⟨a.red + b.red, a.green + b.green, a.blue + b.blue⟩

/-- `colors.rs`: scalar multiplication `Color * Float`. -/
def Color.scale (a : Color) (s : ℚ) : Color := ⟨a.red * s, a.green * s, a.blue * s⟩

/-- `colors.rs`: Hadamard product `Color * Color`. -/
def Color.hmul (a b : Color) : Color := ⟨a.red * b.red, a.green * b.green, a.blue * b.blue⟩

/-- Modelled from the spec: the black color constant `COLOR_BLACK` imported by
`world.rs` from `colors.rs` (absent from the snapshot's `colors.rs`); the spec
says depth exhaustion and misses "return black". -/
def COLOR_BLACK : Color := ⟨0, 0, 0⟩

/-- `tuples.rs`: a 4-component homogeneous tuple (`w=1` point, `w=0` vector). -/
@[ext] structure Tuple4 where
  x : ℚ
  y : ℚ
  z : ℚ
  w : ℚ
  deriving DecidableEq

/-- `tuples.rs`: `point(x, y, z)` fixes `w = 1`. -/
def Tuple4.point (x y z : ℚ) : Tuple4 := ⟨x, y, z, 1⟩

/-- `tuples.rs`: `vector(x, y, z)` fixes `w = 0`. -/
def Tuple4.vector (x y z : ℚ) : Tuple4 := ⟨x, y, z, 0⟩

/-- `tuples.rs`: componentwise addition. -/
def Tuple4.add (a b : Tuple4) : Tuple4 := ⟨a.x + b.x, a.y + b.y, a.z + b.z, a.w + b.w⟩

/-- `tuples.rs`: componentwise subtraction. -/
def Tuple4.sub (a b : Tuple4) : Tuple4 := ⟨a.x - b.x, a.y - b.y, a.z - b.z, a.w - b.w⟩

/-- `tuples.rs`: scalar multiplication `Tuple4 * Float`. -/
def Tuple4.scale (a : Tuple4) (s : ℚ) : Tuple4 := ⟨a.x * s, a.y * s, a.z * s, a.w * s⟩

/-- `tuples.rs`: negation. -/
def Tuple4.neg (a : Tuple4) : Tuple4 := ⟨-a.x, -a.y, -a.z, -a.w⟩

/-- `tuples.rs`: `dot` over all four components. -/
def Tuple4.dot (a b : Tuple4) : ℚ := a.x * b.x + a.y * b.y + a.z * b.z + a.w * b.w

/-- `tuples.rs`: `magnitude` (square root of the four-component dot square). -/
def Tuple4.magnitude (a : Tuple4) : ℚ := sqrtQ (a.x * a.x + a.y * a.y + a.z * a.z + a.w * a.w)

/-- `tuples.rs`: `normalize` divides each component by the magnitude.  The
source panics on a zero magnitude; no claim exercises that path, so the model
uses the total rational division (division by zero yields zero). -/
def Tuple4.normalize (a : Tuple4) : Tuple4 :=
  let mag := a.magnitude
  ⟨a.x / mag, a.y / mag, a.z / mag, a.w / mag⟩

/-- `tuples.rs`: `reflect` a vector about a normal. -/
def Tuple4.reflect (v normal : Tuple4) : Tuple4 :=
  let d := v.dot normal
  Tuple4.vector (v.x - 2 * d * normal.x) (v.y - 2 * d * normal.y) (v.z - 2 * d * normal.z)

/-- `matrices.rs`: a 4×4 float matrix (`Matrix<Float, 4>`), entry `aij` is
`data[i][j]`. -/
@[ext] structure M4 where
  (a00 a01 a02 a03 a10 a11 a12 a13 a20 a21 a22 a23 a30 a31 a32 a33 : ℚ)
  deriving DecidableEq

/-- `matrices.rs`: the 3×3 determinant (cofactor expansion along row 0), as
the generic `Determinant for Matrix<T, 3>` instance computes it, applied to
the nine entries row-major. -/
def det3 (b00 b01 b02 b10 b11 b12 b20 b21 b22 : ℚ) : ℚ :=
  b00 * (b11 * b22 - b12 * b21) + b01 * (-(b10 * b22 - b12 * b20)) + b02 * (b10 * b21 - b11 * b20)

/-- `matrices.rs`: `minor(0,0)` of a 4×4 matrix (drop row 0, column 0). -/
def M4.minor00 (m : M4) : ℚ := det3 m.a11 m.a12 m.a13 m.a21 m.a22 m.a23 m.a31 m.a32 m.a33

/-- `matrices.rs`: `minor(0,1)`. -/
def M4.minor01 (m : M4) : ℚ := det3 m.a10 m.a12 m.a13 m.a20 m.a22 m.a23 m.a30 m.a32 m.a33

/-- `matrices.rs`: `minor(0,2)`. -/
def M4.minor02 (m : M4) : ℚ := det3 m.a10 m.a11 m.a13 m.a20 m.a21 m.a23 m.a30 m.a31 m.a33

/-- `matrices.rs`: `minor(0,3)`. -/
def M4.minor03 (m : M4) : ℚ := det3 m.a10 m.a11 m.a12 m.a20 m.a21 m.a22 m.a30 m.a31 m.a32

/-- `matrices.rs`: `minor(1,0)`. -/
def M4.minor10 (m : M4) : ℚ := det3 m.a01 m.a02 m.a03 m.a21 m.a22 m.a23 m.a31 m.a32 m.a33

/-- `matrices.rs`: `minor(1,1)`. -/
def M4.minor11 (m : M4) : ℚ := det3 m.a00 m.a02 m.a03 m.a20 m.a22 m.a23 m.a30 m.a32 m.a33

/-- `matrices.rs`: `minor(1,2)`. -/
def M4.minor12 (m : M4) : ℚ := det3 m.a00 m.a01 m.a03 m.a20 m.a21 m.a23 m.a30 m.a31 m.a33

/-- `matrices.rs`: `minor(1,3)`. -/
def M4.minor13 (m : M4) : ℚ := det3 m.a00 m.a01 m.a02 m.a20 m.a21 m.a22 m.a30 m.a31 m.a32

/-- `matrices.rs`: `minor(2,0)`. -/
def M4.minor20 (m : M4) : ℚ := det3 m.a01 m.a02 m.a03 m.a11 m.a12 m.a13 m.a31 m.a32 m.a33

/-- `matrices.rs`: `minor(2,1)`. -/
def M4.minor21 (m : M4) : ℚ := det3 m.a00 m.a02 m.a03 m.a10 m.a12 m.a13 m.a30 m.a32 m.a33

/-- `matrices.rs`: `minor(2,2)`. -/
def M4.minor22 (m : M4) : ℚ := det3 m.a00 m.a01 m.a03 m.a10 m.a11 m.a13 m.a30 m.a31 m.a33

/-- `matrices.rs`: `minor(2,3)`. -/
def M4.minor23 (m : M4) : ℚ := det3 m.a00 m.a01 m.a02 m.a10 m.a11 m.a12 m.a30 m.a31 m.a32

/-- `matrices.rs`: `minor(3,0)`. -/
def M4.minor30 (m : M4) : ℚ := det3 m.a01 m.a02 m.a03 m.a11 m.a12 m.a13 m.a21 m.a22 m.a23

/-- `matrices.rs`: `minor(3,1)`. -/
def M4.minor31 (m : M4) : ℚ := det3 m.a00 m.a02 m.a03 m.a10 m.a12 m.a13 m.a20 m.a22 m.a23

/-- `matrices.rs`: `minor(3,2)`. -/
def M4.minor32 (m : M4) : ℚ := det3 m.a00 m.a01 m.a03 m.a10 m.a11 m.a13 m.a20 m.a21 m.a23

/-- `matrices.rs`: `minor(3,3)`. -/
def M4.minor33 (m : M4) : ℚ := det3 m.a00 m.a01 m.a02 m.a10 m.a11 m.a12 m.a20 m.a21 m.a22

/-- `matrices.rs`: `cofactor(i,j) = minor(i,j)` when `i+j` is even, negated
when odd. -/
def M4.cof00 (m : M4) : ℚ := m.minor00

/-- `matrices.rs`: `cofactor(0,1)`. -/
def M4.cof01 (m : M4) : ℚ := -m.minor01

/-- `matrices.rs`: `cofactor(0,2)`. -/
def M4.cof02 (m : M4) : ℚ := m.minor02

/-- `matrices.rs`: `cofactor(0,3)`. -/
def M4.cof03 (m : M4) : ℚ := -m.minor03

/-- `matrices.rs`: `cofactor(1,0)`. -/
def M4.cof10 (m : M4) : ℚ := -m.minor10

/-- `matrices.rs`: `cofactor(1,1)`. -/
def M4.cof11 (m : M4) : ℚ := m.minor11

/-- `matrices.rs`: `cofactor(1,2)`. -/
def M4.cof12 (m : M4) : ℚ := -m.minor12

/-- `matrices.rs`: `cofactor(1,3)`. -/
def M4.cof13 (m : M4) : ℚ := m.minor13

/-- `matrices.rs`: `cofactor(2,0)`. -/
def M4.cof20 (m : M4) : ℚ := m.minor20

/-- `matrices.rs`: `cofactor(2,1)`. -/
def M4.cof21 (m : M4) : ℚ := -m.minor21

/-- `matrices.rs`: `cofactor(2,2)`. -/
def M4.cof22 (m : M4) : ℚ := m.minor22

/-- `matrices.rs`: `cofactor(2,3)`. -/
def M4.cof23 (m : M4) : ℚ := -m.minor23

/-- `matrices.rs`: `cofactor(3,0)`. -/
def M4.cof30 (m : M4) : ℚ := -m.minor30

/-- `matrices.rs`: `cofactor(3,1)`. -/
def M4.cof31 (m : M4) : ℚ := m.minor31

/-- `matrices.rs`: `cofactor(3,2)`. -/
def M4.cof32 (m : M4) : ℚ := -m.minor32

/-- `matrices.rs`: `cofactor(3,3)`. -/
def M4.cof33 (m : M4) : ℚ := m.minor33

/-- `matrices.rs`: the 4×4 determinant, cofactor expansion along row 0. -/
def M4.det (m : M4) : ℚ := m.a00 * m.cof00 + m.a01 * m.cof01 + m.a02 * m.cof02 + m.a03 * m.cof03

/-- `matrices.rs`: `inverse` via cofactor/determinant with transposed
placement (`result[col][row] = cofactor(row, col) / det`).  The source asserts
invertibility and panics otherwise; the model is total (rational division by
zero yields zero), and every claim about `inverse` carries the determinant
hypothesis. -/
def M4.inverse (m : M4) : M4 where
  a00 := m.cof00 / m.det
  a01 := m.cof10 / m.det
  a02 := m.cof20 / m.det
  a03 := m.cof30 / m.det
  a10 := m.cof01 / m.det
  a11 := m.cof11 / m.det
  a12 := m.cof21 / m.det
  a13 := m.cof31 / m.det
  a20 := m.cof02 / m.det
  a21 := m.cof12 / m.det
  a22 := m.cof22 / m.det
  a23 := m.cof32 / m.det
  a30 := m.cof03 / m.det
  a31 := m.cof13 / m.det
  a32 := m.cof23 / m.det
  a33 := m.cof33 / m.det

/-- `matrices.rs`: `multiply_matrix` (row-by-column sums). -/
def M4.mul (m n : M4) : M4 where
  a00 := m.a00 * n.a00 + m.a01 * n.a10 + m.a02 * n.a20 + m.a03 * n.a30
  a01 := m.a00 * n.a01 + m.a01 * n.a11 + m.a02 * n.a21 + m.a03 * n.a31
  a02 := m.a00 * n.a02 + m.a01 * n.a12 + m.a02 * n.a22 + m.a03 * n.a32
  a03 := m.a00 * n.a03 + m.a01 * n.a13 + m.a02 * n.a23 + m.a03 * n.a33
  a10 := m.a10 * n.a00 + m.a11 * n.a10 + m.a12 * n.a20 + m.a13 * n.a30
  a11 := m.a10 * n.a01 + m.a11 * n.a11 + m.a12 * n.a21 + m.a13 * n.a31
  a12 := m.a10 * n.a02 + m.a11 * n.a12 + m.a12 * n.a22 + m.a13 * n.a32
  a13 := m.a10 * n.a03 + m.a11 * n.a13 + m.a12 * n.a23 + m.a13 * n.a33
  a20 := m.a20 * n.a00 + m.a21 * n.a10 + m.a22 * n.a20 + m.a23 * n.a30
  a21 := m.a20 * n.a01 + m.a21 * n.a11 + m.a22 * n.a21 + m.a23 * n.a31
  a22 := m.a20 * n.a02 + m.a21 * n.a12 + m.a22 * n.a22 + m.a23 * n.a32
  a23 := m.a20 * n.a03 + m.a21 * n.a13 + m.a22 * n.a23 + m.a23 * n.a33
  a30 := m.a30 * n.a00 + m.a31 * n.a10 + m.a32 * n.a20 + m.a33 * n.a30
  a31 := m.a30 * n.a01 + m.a31 * n.a11 + m.a32 * n.a21 + m.a33 * n.a31
  a32 := m.a30 * n.a02 + m.a31 * n.a12 + m.a32 * n.a22 + m.a33 * n.a32
  a33 := m.a30 * n.a03 + m.a31 * n.a13 + m.a32 * n.a23 + m.a33 * n.a33

/-- `matrices.rs`: `transpose`. -/
def M4.transpose (m : M4) : M4 where
  a00 := m.a00
  a01 := m.a10
  a02 := m.a20
  a03 := m.a30
  a10 := m.a01
  a11 := m.a11
  a12 := m.a21
  a13 := m.a31
  a20 := m.a02
  a21 := m.a12
  a22 := m.a22
  a23 := m.a32
  a30 := m.a03
  a31 := m.a13
  a32 := m.a23
  a33 := m.a33

/-- `matrices.rs`: `identity`. -/
def M4.identity : M4 :=
  ⟨1, 0, 0, 0, 0, 1, 0, 0, 0, 0, 1, 0, 0, 0, 0, 1⟩

/-- `matrices.rs`: `multiply_tuple` (matrix times homogeneous tuple). -/
def M4.mulT (m : M4) (t : Tuple4) : Tuple4 where
  x := m.a00 * t.x + m.a01 * t.y + m.a02 * t.z + m.a03 * t.w
  y := m.a10 * t.x + m.a11 * t.y + m.a12 * t.z + m.a13 * t.w
  z := m.a20 * t.x + m.a21 * t.y + m.a22 * t.z + m.a23 * t.w
  w := m.a30 * t.x + m.a31 * t.y + m.a32 * t.z + m.a33 * t.w

/-- `transformations.rs`: `translation(x, y, z)`. -/
def translation (x y z : ℚ) : M4 :=
  ⟨1, 0, 0, x, 0, 1, 0, y, 0, 0, 1, z, 0, 0, 0, 1⟩

/-- `transformations.rs`: `scaling(x, y, z)`. -/
def scaling (x y z : ℚ) : M4 :=
  ⟨x, 0, 0, 0, 0, y, 0, 0, 0, 0, z, 0, 0, 0, 0, 1⟩

/-- `rays.rs`: a ray. -/
structure Ray where
  origin : Tuple4
  direction : Tuple4
  deriving DecidableEq

/-- `rays.rs`: `position(t) = origin + direction * t`. -/
def Ray.position (r : Ray) (t : ℚ) : Tuple4 := r.origin.add (r.direction.scale t)

/-- `rays.rs`: `transform(m)` maps origin and direction through `m`. -/
def Ray.transformBy (r : Ray) (m : M4) : Ray := ⟨m.mulT r.origin, m.mulT r.direction⟩

/-- `patterns.rs`: a stripe pattern (two colors and a pattern transform). -/
structure StripePattern where
  a : Color
  b : Color
  transform : M4
  deriving DecidableEq

/-- `materials.rs`: the surface material.  The snapshot's `materials.rs`
predates the reflection/refraction chapters and lacks the last three fields,
which its callers (`world.rs`, `spheres.rs::glass_sphere`) read and which are
Modelled from the spec: `reflective`, `transparency`, `refractive_index`. -/
structure Material where
  color : Color
  pattern : Option StripePattern
  ambient : ℚ
  diffuse : ℚ
  specular : ℚ
  shininess : ℚ
  reflective : ℚ
  transparency : ℚ
  refractive_index : ℚ
  deriving DecidableEq

/-- `materials.rs`: `Material::new` — the default material.  Defaults for the
three fields missing from the snapshot are Modelled from the spec:
reflective = 0, transparency = 0, refractive_index = 1.0 (vacuum). -/
def Material.new : Material where
  color := Color.new 1 1 1
  pattern := none
  ambient := 1 / 10
  diffuse := 9 / 10
  specular := 9 / 10
  shininess := 200
  reflective := 0
  transparency := 0
  refractive_index := 1

/-- `lighting.rs`: a point light. -/
structure PointLight where
  position : Tuple4
  intensity : Color
  deriving DecidableEq

/-- `spheres.rs`: a sphere.  `Sphere::new` draws `id` from a global atomic
counter; the model takes the drawn value as an argument. -/
structure Sphere where
  id : Nat
  transform : M4
  material : Material
  deriving DecidableEq

/-- `spheres.rs`: `Sphere::new` with the freshly drawn id. -/
def Sphere.new (id : Nat) : Sphere := ⟨id, M4.identity, Material.new⟩

/-- `spheres.rs`: `glass_sphere()` — a default sphere with transparency 1 and
refractive index 1.5. -/
def glassSphere (id : Nat) : Sphere :=
  { Sphere.new id with
      material := { Material.new with transparency := 1, refractive_index := 3 / 2 } }

/-- `planes.rs`: a plane (the `y = 0` plane in local space). -/
structure Plane where
  transform : M4
  material : Material
  deriving DecidableEq

/-- `planes.rs`: `Plane::default()`. -/
def Plane.default : Plane := ⟨M4.identity, Material.new⟩

/-- The concrete shape behind a `&dyn Shape` trait object. -/
inductive ShapeData where
  | sphere (s : Sphere)
  | plane (p : Plane)
  deriving DecidableEq

/-- A `&dyn Shape` reference: `addr` models the reference's address (distinct
scene objects have distinct addresses), which `world.rs::is_same_shape`
compares. -/
structure ShapeRef where
  addr : Nat
  data : ShapeData
  deriving DecidableEq

/-- `shapes.rs`: the shape's `transform` (both impls store it directly). -/
def ShapeData.transform : ShapeData → M4
  | .sphere s => s.transform
  | .plane p => p.transform

/-- `shapes.rs`: the shape's `material()`. -/
def ShapeData.material : ShapeData → Material
  | .sphere s => s.material
  | .plane p => p.material

/-- `spheres.rs`/`planes.rs`: `transform_inverse()` is `transform.inverse()`
for both shape kinds. -/
def ShapeRef.transformInverse (s : ShapeRef) : M4 := s.data.transform.inverse

/-- `spheres.rs`/`planes.rs`: `local_normal_at` — sphere: `p − point(0,0,0)`;
plane: the constant `vector(0, 1, 0)`. -/
def ShapeData.localNormalAt : ShapeData → Tuple4 → Tuple4
  | .sphere _, p => p.sub (Tuple4.point 0 0 0)
  | .plane _, _ => Tuple4.vector 0 1 0

/-- `intersections.rs`: an intersection `{t, object}`. -/
structure Intersection where
  t : ℚ
  object : ShapeRef
  deriving DecidableEq

/-- `spheres.rs::local_intersect` (the quadratic for the unit sphere) and
`planes.rs::local_intersect` (which returns `vec![]` unconditionally in the
source). -/
def ShapeRef.localIntersect (self : ShapeRef) (localRay : Ray) : List Intersection :=
  match self.data with
  | .sphere _ =>
    let sphereToRay := localRay.origin.sub (Tuple4.point 0 0 0)
    let a := localRay.direction.dot localRay.direction
    let b := 2 * localRay.direction.dot sphereToRay
    let c := sphereToRay.dot sphereToRay - 1
    let discriminant := b ^ 2 - 4 * a * c
    if discriminant < 0 then []
    else
      let t1 := (-b - sqrtQ discriminant) / (2 * a)
      let t2 := (-b + sqrtQ discriminant) / (2 * a)
      if t1 > t2 then [⟨t2, self⟩, ⟨t1, self⟩]
      else [⟨t1, self⟩, ⟨t2, self⟩]
  | .plane _ => []

/-- `shapes.rs`: default `intersect` — transform the world ray into local
space by the inverse transform, then `local_intersect`. -/
def ShapeRef.intersect (self : ShapeRef) (r : Ray) : List Intersection :=
  self.localIntersect (r.transformBy self.transformInverse)

/-- `shapes.rs`: default `normal_at` — local point, local normal, map back by
the transposed inverse, force `w = 0`, normalize. -/
def ShapeRef.normalAt (self : ShapeRef) (worldPoint : Tuple4) : Tuple4 :=
  let ti := self.transformInverse
  let localPoint := ti.mulT worldPoint
  let localNormal := self.data.localNormalAt localPoint
  let worldNormal := ti.transpose.mulT localNormal
  let worldNormal := { worldNormal with w := 0 }
  worldNormal.normalize

/-- `patterns.rs`: `stripe_at` — alternates on the floor of local x modulo 2
(Rust `%` on `i32` is the truncated remainder, `Int.tmod`). -/
def StripePattern.stripeAt (p : StripePattern) (point : Tuple4) : Color :=
  if Int.tmod ⌊point.x⌋ 2 = 0 then p.a else p.b

/-- `patterns.rs`: `stripe_at_object` — world point through the object's
inverse transform, then the pattern's inverse transform, then `stripe_at`. -/
def StripePattern.stripeAtObject (p : StripePattern) (object : ShapeRef) (worldPoint : Tuple4) : Color :=
  let objectPoint := object.transformInverse.mulT worldPoint
  let patternPoint := p.transform.inverse.mulT objectPoint
  p.stripeAt patternPoint

/-- `world.rs`: the scene aggregate. -/
structure World where
  objects : List Sphere
  light : Option PointLight
  planes : List Plane
  deriving DecidableEq

/-- Faults of the modelled effectful code: `panicked` models a Rust panic
(`assert!`/`expect`); `diverged` models running out of recursion fuel. -/
inductive Fault where
  | panicked
  | diverged
  deriving DecidableEq

/-- `world.rs`: `World::new` asserts that the thread's `RECURSION_DEPTH`
counter is 0 and panics otherwise; the model takes the counter value. -/
def World.new (depth : Nat) : Except Fault World :=
  if depth = 0 then .ok ⟨[], none, []⟩ else .error .panicked

/-- `world.rs`: `Default for World` delegates to `World::new`. -/
def World.defaultCtor (depth : Nat) : Except Fault World := World.new depth

/-- `world.rs`: `World::with_light` builds the world directly, with no
recursion-depth check (it never reads the counter, so the model does not take
it). -/
def World.withLight (light : PointLight) : World := ⟨[], some light, []⟩

/-- The `&dyn Shape` references a `World` hands out: spheres in order, then
planes, with distinct addresses (modelling distinct storage addresses). -/
def World.shapeRefs (w : World) : List ShapeRef :=
  (w.objects.enum.map fun p => ⟨p.1, .sphere p.2⟩) ++
    (w.planes.enum.map fun p => ⟨w.objects.length + p.1, .plane p.2⟩)

/-- `world.rs`: `World::intersect` — every sphere's then every plane's
intersections appended, then sorted ascending by `t` (Rust's stable
`sort_by`). -/
def World.intersect (w : World) (r : Ray) : List Intersection :=
  ((w.shapeRefs.map fun s => s.intersect r).flatten).mergeSort fun a b => a.t ≤ b.t

/-- `intersections.rs`: `hit` — filter `t ≥ 0`, then `min_by` on `t` (Rust's
`min_by` keeps the earlier element on ties). -/
def hit (xs : List Intersection) : Option Intersection :=
  (xs.filter fun i => decide (0 ≤ i.t)).foldl
    (fun acc i =>
      match acc with
      | none => some i
      | some m => if i.t < m.t then some i else some m)
    none

/-- IEEE `>= 0.0` on a possibly-NaN float (`none` models NaN): false for NaN. -/
def geZeroF : Option ℚ → Bool
  | some x => decide (0 ≤ x)
  | none => false

/-- Rust `partial_cmp` on possibly-NaN floats: `None` if either side is NaN. -/
def pcmpF : Option ℚ → Option ℚ → Option Ordering
  | some x, some y => some (compare x y)
  | _, _ => none

/-- An intersection whose `t` may be NaN (`none`); the shape reference is
abstracted to its address, which `hit` never inspects. -/
structure IntersectionN where
  t : Option ℚ
  addr : Nat
  deriving DecidableEq

/-- One `min_by` step of `hit` under the possibly-NaN float model: Rust's
`cmp::min_by` keeps the accumulator unless the comparator says it is greater,
and the comparator `a.t.partial_cmp(&b.t).unwrap()` panics (`Except.error`)
when either side is NaN. -/
def hitNStep (acc : Option IntersectionN) (i : IntersectionN) : Except Unit (Option IntersectionN) :=
  match acc with
  | none => Except.ok (some i)
  | some m =>
    match pcmpF m.t i.t with
    | none => Except.error ()
    | some Ordering.gt => Except.ok (some i)
    | some _ => Except.ok (some m)

/-- `intersections.rs`: `hit` under the possibly-NaN float model, with the
`unwrap` inside `min_by` made explicit. -/
def hitN (xs : List IntersectionN) : Except Unit (Option IntersectionN) :=
  (xs.filter fun i => geZeroF i.t).foldlM hitNStep none

/-- `world.rs`: `is_same_shape` compares the two `&dyn Shape` references by
address. -/
def isSameShape (a b : ShapeRef) : Bool := a.addr == b.addr

/-- `world.rs::prepare_computations`: the refractive index of the innermost
container (`containers.last()`), or 1.0 for the empty stack. -/
def refrOfLast (cs : List ShapeRef) : ℚ :=
  match cs.getLast? with
  | none => 1
  | some c => c.data.material.refractive_index

/-- `world.rs::prepare_computations`: the membership toggle on the containers
stack — remove the first entry with the same address if present (the ray is
exiting that shape), else push the object on the end (the ray is entering). -/
def toggleContainer (cs : List ShapeRef) (o : ShapeRef) : List ShapeRef :=
  if cs.any fun c => isSameShape c o then cs.eraseP fun c => isSameShape c o
  else cs ++ [o]

/-- `world.rs::prepare_computations`: the refractive-index walk over the full
intersection list.  At the intersection whose `t` equals the target's, `n1` is
read from the stack top before the toggle and `n2` after it, and the walk
stops; if no intersection matches, both stay at their initial 1.0. -/
def n1n2Walk (targetT : ℚ) : List Intersection → List ShapeRef → ℚ × ℚ
  | [], _ => (1, 1)
  | x :: rest, cs =>
    if x.t = targetT then
      let n1 := refrOfLast cs
      let cs' := toggleContainer cs x.object
      (n1, refrOfLast cs')
    else n1n2Walk targetT rest (toggleContainer cs x.object)

/-- `world.rs`: the per-intersection shading state. -/
structure Computations where
  t : ℚ
  object : ShapeRef
  point : Tuple4
  eyev : Tuple4
  normalv : Tuple4
  inside : Bool
  over_point : Tuple4
  reflectv : Tuple4
  n1 : ℚ
  n2 : ℚ
  under_point : Tuple4
  deriving DecidableEq

/-- `world.rs`: `Intersection::prepare_computations`. -/
def prepareComputations (i : Intersection) (r : Ray) (xsOrNone : Option (List Intersection)) : Computations :=
  let point := r.position i.t
  let eyev := r.direction.neg
  let normalv0 := i.object.normalAt point
  let inside := decide (normalv0.dot eyev < 0)
  let normalv := if inside then normalv0.neg else normalv0
  let reflectv := r.direction.reflect normalv
  let over_point := point.add (normalv.scale EPSILON)
  let under_point := point.sub (normalv.scale EPSILON)
  let xs := xsOrNone.getD []
  let nn := n1n2Walk i.t xs []
  ⟨i.t, i.object, point, eyev, normalv, inside, over_point, reflectv, nn.1, nn.2, under_point⟩

/-- Model of Rust `Float::powf` for the nonnegative integral exponents the
code uses (the only call site raises to `material.shininess`, default 200). -/
def powfQ (x y : ℚ) : ℚ := x ^ (⌊y⌋).toNat

/-- Modelled from the spec: `lighting(material, object, light, point, eyev,
normalv, in_shadow)` — the Phong model of §4.5.  The snapshot's `lighting.rs`
predates the shadow and pattern chapters (five arguments, no `in_shadow`);
its callers (`world.rs::shade_hit` and the `materials.rs` tests) use this
seven-argument form. -/
def lighting (m : Material) (object : ShapeRef) (light : PointLight)
    (position eyev normalv : Tuple4) (in_shadow : Bool) : Color :=
  let effective_color :=
    (match m.pattern with
      | some p => p.stripeAtObject object position
      | none => m.color).hmul light.intensity
  let ambient := effective_color.scale m.ambient
  if in_shadow then ambient
  else
    let lightv := (light.position.sub position).normalize
    let light_dot_normal := lightv.dot normalv
    let ds :=
      if light_dot_normal < 0 then (COLOR_BLACK, COLOR_BLACK)
      else
        let diffuse := (effective_color.scale m.diffuse).scale light_dot_normal
        let reflectv := lightv.neg.reflect normalv
        let reflect_dot_eye := reflectv.dot eyev
        if reflect_dot_eye ≤ 0 then (diffuse, COLOR_BLACK)
        else (diffuse, (light.intensity.scale m.specular).scale (powfQ reflect_dot_eye m.shininess))
    (ambient.add ds.1).add ds.2

/-- Modelled from the spec: `schlick(comps)` — the Schlick Fresnel
approximation of §4.5 (`world.rs` imports it from `lighting.rs`, whose
snapshot predates it). -/
def schlick (c : Computations) : ℚ :=
  let cos0 := c.eyev.dot c.normalv
  if c.n1 > c.n2 then
    let nr := c.n1 / c.n2
    let sin2_t := nr ^ 2 * (1 - cos0 ^ 2)
    if sin2_t > 1 then 1
    else
      let cos_t := sqrtQ (1 - sin2_t)
      let r0 := ((c.n1 - c.n2) / (c.n1 + c.n2)) ^ 2
      r0 + (1 - r0) * (1 - cos_t) ^ 5
  else
    let r0 := ((c.n1 - c.n2) / (c.n1 + c.n2)) ^ 2
    r0 + (1 - r0) * (1 - cos0) ^ 5

/-- `world.rs`: `is_shadowed` — `expect`s the light (panic when absent), casts
a ray toward it and checks whether the nearest nonnegative hit is closer than
the light. -/
def isShadowedE (w : World) (point : Tuple4) : Except Fault Bool :=
  match w.light with
  | none => .error .panicked
  | some light =>
    let v := light.position.sub point
    let distance := v.magnitude
    let direction := v.normalize
    let r : Ray := ⟨point, direction⟩
    let ixs := w.intersect r
    match hit ixs with
    | some h => .ok (decide (h.t < distance))
    | none => .ok false

mutual

/-- `world.rs`: `color_at` under the state-passing model of the thread-local
depth counter.  The counter value enters as `d` and the returned value is the
counter after the call; `fuel` bounds the modelled recursion (`Fault.diverged`
models non-termination).  At `d ≥ 5` it returns black immediately, before
intersecting the world; otherwise it runs the body with the counter set to
`d + 1` and restores `d` before returning. -/
def colorAtS : Nat → World → Ray → Nat → Except Fault (Color × Nat)
  | 0, _, _, _ => .error .diverged
  | Nat.succ fuel, w, r, d =>
    if 5 ≤ d then .ok (COLOR_BLACK, d)
    else
      let xs := w.intersect r
      match hit xs with
      | some i =>
        match shadeHitS fuel w (prepareComputations i r (some xs)) (d + 1) with
        | .ok (c, _) => .ok (c, d)
        | .error f => .error f
      | none => .ok (COLOR_BLACK, d)
  termination_by fuel _ _ _ => (fuel, 0)

/-- `world.rs`: `shade_hit` — surface lighting with the shadow test, plus the
reflected and refracted contributions, Schlick-blended when the material is
both reflective and transparent. -/
def shadeHitS (fuel : Nat) (w : World) (comps : Computations) (k : Nat) : Except Fault (Color × Nat) :=
  match w.light with
  | none => .error .panicked
  | some light =>
    match isShadowedE w comps.over_point with
    | .error f => .error f
    | .ok in_shadow =>
      let surface := lighting comps.object.data.material comps.object light
        comps.over_point comps.eyev comps.normalv in_shadow
      match reflectedColorS fuel w comps k with
      | .error f => .error f
      | .ok (reflected, k1) =>
        match refractedColorS fuel w comps k1 with
        | .error f => .error f
        | .ok (refracted, k2) =>
          let m := comps.object.data.material
          if 0 < m.reflective ∧ 0 < m.transparency then
            let reflectance := schlick comps
            .ok ((surface.add (reflected.scale reflectance)).add
              (refracted.scale (1 - reflectance)), k2)
          else .ok ((surface.add reflected).add refracted, k2)
  termination_by (fuel, 2)

/-- `world.rs`: `reflected_color` — black (no cast) below the reflectivity
epsilon, else a recursive `color_at` along the reflection ray scaled by the
reflectivity. -/
def reflectedColorS (fuel : Nat) (w : World) (comps : Computations) (k : Nat) : Except Fault (Color × Nat) :=
  if comps.object.data.material.reflective < EPSILON then .ok (COLOR_BLACK, k)
  else
    match colorAtS fuel w ⟨comps.over_point, comps.reflectv⟩ k with
    | .ok (c, q) => .ok (c.scale comps.object.data.material.reflective, q)
    | .error f => .error f
  termination_by (fuel, 1)

/-- `world.rs`: `refracted_color` — black for an opaque material or total
internal reflection, else a recursive `color_at` along the Snell-refracted ray
scaled by the transparency. -/
def refractedColorS (fuel : Nat) (w : World) (comps : Computations) (k : Nat) : Except Fault (Color × Nat) :=
  if comps.object.data.material.transparency = 0 then .ok (COLOR_BLACK, k)
  else
    let nr := comps.n1 / comps.n2
    let cos_i := comps.eyev.dot comps.normalv
    let sin2_t := nr ^ 2 * (1 - cos_i ^ 2)
    if sin2_t > 1 then .ok (COLOR_BLACK, k)
    else
      let cos_t := sqrtQ (1 - sin2_t)
      let direction := (comps.normalv.scale (nr * cos_i - cos_t)).sub (comps.eyev.scale nr)
      match colorAtS fuel w ⟨comps.under_point, direction⟩ k with
      | .ok (c, q) => .ok (c.scale comps.object.data.material.transparency, q)
      | .error f => .error f
  termination_by (fuel, 1)

end

/-- A default plane behind a `&dyn Shape` reference (claim scenarios). -/
def planeRefDefault : ShapeRef := ⟨0, .plane Plane.default⟩

/-- A default unit sphere behind a `&dyn Shape` reference (claim scenarios). -/
def unitSphereRef : ShapeRef := ⟨0, .sphere (Sphere.new 0)⟩

/-- Refraction scenario, sphere A: glass sphere scaled by 2 with refractive
index 1.5 (the book's canonical three-sphere test). -/
def sphereA : Sphere :=
  { glassSphere 0 with
      transform := scaling 2 2 2
      material := { (glassSphere 0).material with refractive_index := 3 / 2 } }

/-- Refraction scenario, sphere B: glass sphere translated by (0,0,−0.25)
with refractive index 2.0. -/
def sphereB : Sphere :=
  { glassSphere 1 with
      transform := translation 0 0 (-1 / 4)
      material := { (glassSphere 1).material with refractive_index := 2 } }

/-- Refraction scenario, sphere C: glass sphere translated by (0,0,0.25) with
refractive index 2.5. -/
def sphereC : Sphere :=
  { glassSphere 2 with
      transform := translation 0 0 (1 / 4)
      material := { (glassSphere 2).material with refractive_index := 5 / 2 } }

/-- Reference to sphere A (distinct addresses model distinct allocations). -/
def refA : ShapeRef := ⟨0, .sphere sphereA⟩

/-- Reference to sphere B. -/
def refB : ShapeRef := ⟨1, .sphere sphereB⟩

/-- Reference to sphere C. -/
def refC : ShapeRef := ⟨2, .sphere sphereC⟩

/-- The six boundary crossings of the three-sphere refraction scenario:
`intersections(2:A, 2.75:B, 3.25:C, 4.75:B, 5.25:C, 6:A)`. -/
def xsRefraction : List Intersection :=
  [⟨2, refA⟩, ⟨11 / 4, refB⟩, ⟨13 / 4, refC⟩, ⟨19 / 4, refB⟩, ⟨21 / 4, refC⟩, ⟨6, refA⟩]

/-- The ray of the three-sphere refraction scenario:
`ray(point(0, 0, -4), vector(0, 0, 1))`. -/
def rayRefraction : Ray := ⟨Tuple4.point 0 0 (-4), Tuple4.vector 0 0 1⟩

/-- Mirror scenario, lower plane: fully reflective, translated to y = −1. -/
def lowerMirror : Plane :=
  ⟨translation 0 (-1) 0, { Material.new with reflective := 1 }⟩

/-- Mirror scenario, upper plane: fully reflective, translated to y = 1. -/
def upperMirror : Plane :=
  ⟨translation 0 1 0, { Material.new with reflective := 1 }⟩

/-- Mirror scenario world: light at the origin between two parallel fully
reflective planes. -/
def mirrorWorld : World :=
  { World.withLight ⟨Tuple4.point 0 0 0, Color.new 1 1 1⟩ with
      planes := [lowerMirror, upperMirror] }

/-- Mirror scenario ray: straight up from the origin. -/
def rayUp : Ray := ⟨Tuple4.point 0 0 0, Tuple4.vector 0 1 0⟩

/-- C1: the failing input of the plane-intersection claim — the ray from
above, `ray(point(0, 1, 0), vector(0, -1, 0))`. -/
def rayFromAbove : Ray := ⟨Tuple4.point 0 1 0, Tuple4.vector 0 (-1) 0⟩

/-- C2: the effective surface color of the spec's `lighting` — the pattern
color at the object point when a pattern is present, else the material color,
Hadamard-multiplied by the light intensity. -/
def effectiveColor (m : Material) (object : ShapeRef) (light : PointLight) (position : Tuple4) : Color :=
  (match m.pattern with
    | some p => p.stripeAtObject object position
    | none => m.color).hmul light.intensity

/-- C8 witness matrix: `translation(5, -3, 2)` (invertible, determinant 1). -/
def witnessMatrix : M4 := translation 5 (-3) 2

/-- C5/C9 witness list: intersections with t = 2, −1, 1 on the unit sphere. -/
def witnessHitList : List Intersection :=
  [⟨2, unitSphereRef⟩, ⟨-1, unitSphereRef⟩, ⟨1, unitSphereRef⟩]

/-- C6: the quadratic coefficient `a = dir·dir` of the sphere intersection. -/
def sphereQuadA (r : Ray) : ℚ := r.direction.dot r.direction

/-- C6: the quadratic coefficient `b = 2·dir·(origin−center)` (the unit
sphere is centered at the origin). -/
def sphereQuadB (r : Ray) : ℚ :=
  2 * r.direction.dot (r.origin.sub (Tuple4.point 0 0 0))

/-- C6: the quadratic coefficient `c = (origin−center)·(origin−center) − 1`. -/
def sphereQuadC (r : Ray) : ℚ :=
  (r.origin.sub (Tuple4.point 0 0 0)).dot (r.origin.sub (Tuple4.point 0 0 0)) - 1

/-- C6: the discriminant `b² − 4ac` of the sphere intersection. -/
def sphereDisc (r : Ray) : ℚ := sphereQuadB r ^ 2 - 4 * sphereQuadA r * sphereQuadC r

/-- C6: the root `(−b − √disc) / 2a`. -/
def sphereT1 (r : Ray) : ℚ := (-sphereQuadB r - sqrtQ (sphereDisc r)) / (2 * sphereQuadA r)

/-- C6: the root `(−b + √disc) / 2a`. -/
def sphereT2 (r : Ray) : ℚ := (-sphereQuadB r + sqrtQ (sphereDisc r)) / (2 * sphereQuadA r)

/-- C6 witness ray: from inside the sphere, `ray(point(0,0,0), vector(0,0,1))`. -/
def rayInsideSphere : Ray := ⟨Tuple4.point 0 0 0, Tuple4.vector 0 0 1⟩

/-- C1.  The claim says `Plane::local_intersect` returns no hits for
`|direction.y| < ε` and otherwise exactly one hit with
`t = −origin.y/direction.y` (so the ray from (0,1,0) along (0,−1,0) must give
a single hit with t = 1).  The code disagrees: `planes.rs::local_intersect`
returns an empty `Vec` for every ray, including the claim's "in particular"
ray, contradicting the expected singleton `[t = 1]` — and contradicting the
tests in `planes.rs` itself. -/
theorem C1_plane_local_intersect_empty :
    (∀ (p : Plane) (a : Nat) (r : Ray), ShapeRef.localIntersect ⟨a, .plane p⟩ r = []) ∧
    ShapeRef.localIntersect planeRefDefault rayFromAbove = [] ∧
    ([] : List Intersection) ≠ [⟨1, planeRefDefault⟩] := by
  refine ⟨fun p a r => rfl, rfl, by decide⟩

/-- C2.  For every material, light, point, eye vector, normal vector and
object, `lighting` with `in_shadow = true` returns the ambient term alone —
the effective color scaled by `material.ambient` — with the diffuse and
specular contributions suppressed. -/
theorem C2_lighting_in_shadow_is_ambient (m : Material) (object : ShapeRef)
    (light : PointLight) (position eyev normalv : Tuple4) :
    lighting m object light position eyev normalv true =
      (effectiveColor m object light position).scale m.ambient := by
  rfl

/-- C3.  The default material has color white, ambient 0.1, diffuse 0.9,
specular 0.9, shininess 200, no pattern, reflective 0, transparency 0 and
refractive index 1.0. -/
theorem C3_default_material :
    Material.new =
      { color := Color.new 1 1 1
        pattern := none
        ambient := 1 / 10
        diffuse := 9 / 10
        specular := 9 / 10
        shininess := 200
        reflective := 0
        transparency := 0
        refractive_index := 1 } := by
  rfl

/-- C10.  `World::new` asserts the calling thread's recursion-depth counter
is exactly 0 and panics otherwise (so does `Default`, which delegates to it,
and hence `..World::new()` struct-update); any counter value of the form
`d + 1` — which is what the counter holds while a `color_at` body runs —
panics.  `World::with_light` never reads the counter and constructs the
world directly. -/
theorem C10_world_new_depth_check (d : Nat) (hd : d ≠ 0) :
    World.new d = .error .panicked ∧
    (∀ d', World.new (d' + 1) = .error .panicked) ∧
    World.new 0 = .ok ⟨[], none, []⟩ ∧
    World.defaultCtor d = World.new d ∧
    ∀ light, World.withLight light = ⟨[], some light, []⟩ := by
  refine ⟨by simp [World.new, hd], fun d' => by simp [World.new], rfl, rfl, fun light => rfl⟩

/-- C10 witness: instantiated at counter value 3. -/
theorem C10_world_new_depth_check_witness :
    World.new 3 = .error .panicked ∧
    (∀ d', World.new (d' + 1) = .error .panicked) ∧
    World.new 0 = .ok ⟨[], none, []⟩ ∧
    World.defaultCtor 3 = World.new 3 ∧
    ∀ light, World.withLight light = ⟨[], some light, []⟩ :=
  C10_world_new_depth_check 3 (by decide)

/-- Proof helper: the transposed cofactor matrix (`inverse` without the
division by the determinant). -/
def M4.adjT (m : M4) : M4 where
  a00 := m.cof00
  a01 := m.cof10
  a02 := m.cof20
  a03 := m.cof30
  a10 := m.cof01
  a11 := m.cof11
  a12 := m.cof21
  a13 := m.cof31
  a20 := m.cof02
  a21 := m.cof12
  a22 := m.cof22
  a23 := m.cof32
  a30 := m.cof03
  a31 := m.cof13
  a32 := m.cof23
  a33 := m.cof33

/-- Proof helper: entrywise scalar multiple of a matrix. -/
def M4.smulM (q : ℚ) (m : M4) : M4 where
  a00 := q * m.a00
  a01 := q * m.a01
  a02 := q * m.a02
  a03 := q * m.a03
  a10 := q * m.a10
  a11 := q * m.a11
  a12 := q * m.a12
  a13 := q * m.a13
  a20 := q * m.a20
  a21 := q * m.a21
  a22 := q * m.a22
  a23 := q * m.a23
  a30 := q * m.a30
  a31 := q * m.a31
  a32 := q * m.a32
  a33 := q * m.a33

/-- Helper: `sqrtQ` is exact on perfect squares. -/
theorem sqrtQ_eval (a b : ℚ) (hb : 0 ≤ b) (h : b * b = a) : sqrtQ a = b := by
  unfold sqrtQ
  rw [← h, Rat.sqrt_eq, abs_of_nonneg hb]

/-- Helper: `sqrtQ 0 = 0`. -/
theorem sqrtQ_zero : sqrtQ 0 = 0 := sqrtQ_eval 0 0 le_rfl (by norm_num)

/-- Helper: `sqrtQ 1 = 1`. -/
theorem sqrtQ_one : sqrtQ 1 = 1 := sqrtQ_eval 1 1 (by norm_num) (by norm_num)

/-- Helper: `sqrtQ 4 = 2`. -/
theorem sqrtQ_four : sqrtQ 4 = 2 := sqrtQ_eval 4 2 (by norm_num) (by norm_num)

/-- Helper: `sqrtQ (1/4) = 1/2`. -/
theorem sqrtQ_quarter : sqrtQ (1 / 4) = 1 / 2 := sqrtQ_eval _ _ (by norm_num) (by norm_num)

/-- C6.  `Sphere::local_intersect` solves the quadratic with `a = dir·dir`,
`b = 2·dir·(origin−center)`, `c = (origin−center)·(origin−center) − 1`: a
negative discriminant yields no hits, otherwise both roots are returned in
ascending order, each paired with the sphere; in particular the four
canonical rays on the unit sphere give `[4, 6]`, `[5, 5]`, `[]` and
`[-1, 1]`. -/
theorem C6_sphere_local_intersect (a : Nat) (s : Sphere) (r : Ray) :
    ((sphereDisc r < 0 → ShapeRef.localIntersect ⟨a, .sphere s⟩ r = []) ∧
      (0 ≤ sphereDisc r → ∃ u v,
        ShapeRef.localIntersect ⟨a, .sphere s⟩ r =
          [⟨u, ⟨a, .sphere s⟩⟩, ⟨v, ⟨a, .sphere s⟩⟩] ∧ u ≤ v ∧
          ((u = sphereT1 r ∧ v = sphereT2 r) ∨ (u = sphereT2 r ∧ v = sphereT1 r)))) ∧
    ShapeRef.localIntersect unitSphereRef ⟨Tuple4.point 0 0 (-5), Tuple4.vector 0 0 1⟩ =
      [⟨4, unitSphereRef⟩, ⟨6, unitSphereRef⟩] ∧
    ShapeRef.localIntersect unitSphereRef ⟨Tuple4.point 0 1 (-5), Tuple4.vector 0 0 1⟩ =
      [⟨5, unitSphereRef⟩, ⟨5, unitSphereRef⟩] ∧
    ShapeRef.localIntersect unitSphereRef ⟨Tuple4.point 0 2 (-5), Tuple4.vector 0 0 1⟩ = [] ∧
    ShapeRef.localIntersect unitSphereRef ⟨Tuple4.point 0 0 0, Tuple4.vector 0 0 1⟩ =
      [⟨-1, unitSphereRef⟩, ⟨1, unitSphereRef⟩] := by
  have hsqrt0 : sqrtQ 0 = 0 := sqrtQ_zero
  have hsqrt4 : sqrtQ 4 = 2 := sqrtQ_four
  refine ⟨⟨?_, ?_⟩, ?_, ?_, ?_, ?_⟩
  · intro hneg
    simp only [ShapeRef.localIntersect]
    rw [if_pos]
    simpa [sphereDisc, sphereQuadA, sphereQuadB, sphereQuadC] using hneg
  · intro hpos
    simp only [ShapeRef.localIntersect]
    rw [if_neg (by simpa [sphereDisc, sphereQuadA, sphereQuadB, sphereQuadC, not_lt] using hpos)]
    by_cases ht : sphereT1 r > sphereT2 r
    · rw [if_pos (by simpa [sphereT1, sphereT2, sphereDisc, sphereQuadA, sphereQuadB, sphereQuadC] using ht)]
      exact ⟨sphereT2 r, sphereT1 r,
        by simp [sphereT1, sphereT2, sphereDisc, sphereQuadA, sphereQuadB, sphereQuadC],
        le_of_lt ht, Or.inr ⟨rfl, rfl⟩⟩
    · rw [if_neg (by simpa [sphereT1, sphereT2, sphereDisc, sphereQuadA, sphereQuadB, sphereQuadC] using ht)]
      exact ⟨sphereT1 r, sphereT2 r,
        by simp [sphereT1, sphereT2, sphereDisc, sphereQuadA, sphereQuadB, sphereQuadC],
        not_lt.mp ht, Or.inl ⟨rfl, rfl⟩⟩
  · norm_num [unitSphereRef, ShapeRef.localIntersect, Tuple4.dot, Tuple4.sub,
      Tuple4.point, Tuple4.vector, hsqrt4]
  · norm_num [unitSphereRef, ShapeRef.localIntersect, Tuple4.dot, Tuple4.sub,
      Tuple4.point, Tuple4.vector, hsqrt0]
  · norm_num [unitSphereRef, ShapeRef.localIntersect, Tuple4.dot, Tuple4.sub,
      Tuple4.point, Tuple4.vector]
  · norm_num [unitSphereRef, ShapeRef.localIntersect, Tuple4.dot, Tuple4.sub,
      Tuple4.point, Tuple4.vector, hsqrt4]

/-- C6 witness: the general root characterization applied to the ray from
inside the unit sphere (discriminant 4 ≥ 0). -/
theorem C6_sphere_local_intersect_witness :
    ∃ u v,
      ShapeRef.localIntersect ⟨0, .sphere (Sphere.new 0)⟩ rayInsideSphere =
        [⟨u, ⟨0, .sphere (Sphere.new 0)⟩⟩, ⟨v, ⟨0, .sphere (Sphere.new 0)⟩⟩] ∧ u ≤ v ∧
        ((u = sphereT1 rayInsideSphere ∧ v = sphereT2 rayInsideSphere) ∨
          (u = sphereT2 rayInsideSphere ∧ v = sphereT1 rayInsideSphere)) :=
  (C6_sphere_local_intersect 0 (Sphere.new 0) rayInsideSphere).1.2
    (by norm_num [sphereDisc, sphereQuadA, sphereQuadB, sphereQuadC, rayInsideSphere,
      Tuple4.dot, Tuple4.sub, Tuple4.point, Tuple4.vector])

/-- C4.  `prepare_computations` walks the full intersection list with a
containers stack toggled by reference identity: with no list (or an empty
one) `n1 = n2 = 1.0`, and the three-overlapping-glass-spheres scenario yields
the six canonical `(n1, n2)` pairs
(1, 1.5), (1.5, 2), (2, 2.5), (2.5, 2.5), (2.5, 1.5), (1.5, 1). -/
theorem C4_refractive_index_walk :
    (∀ (i : Intersection) (r : Ray),
      ((prepareComputations i r none).n1 = 1 ∧ (prepareComputations i r none).n2 = 1) ∧
      ((prepareComputations i r (some [])).n1 = 1 ∧ (prepareComputations i r (some [])).n2 = 1)) ∧
    (xsRefraction.map fun i =>
        ((prepareComputations i rayRefraction (some xsRefraction)).n1,
          (prepareComputations i rayRefraction (some xsRefraction)).n2)) =
      [(1, 3 / 2), (3 / 2, 2), (2, 5 / 2), (5 / 2, 5 / 2), (5 / 2, 3 / 2), (3 / 2, 1)] := by
  refine ⟨fun i r => ⟨⟨rfl, rfl⟩, ⟨rfl, rfl⟩⟩, ?_⟩
  simp only [xsRefraction, rayRefraction, List.map, prepareComputations]
  norm_num [n1n2Walk, toggleContainer, isSameShape, refrOfLast, refA, refB, refC,
    sphereA, sphereB, sphereC, glassSphere, Sphere.new, Material.new,
    ShapeData.material, List.getLast?, List.any, List.eraseP_cons,
    Bool.cond_eq_ite, beq_iff_eq]

/-- Helper: the code's `hit` fold is Mathlib's first-minimum selector
`List.argmin` over the nonnegative-`t` filter. -/
theorem hit_eq_argmin (xs : List Intersection) :
    hit xs = (xs.filter fun i => decide (0 ≤ i.t)).argmin Intersection.t := by
  unfold hit List.argmin
  congr 1
  funext acc i
  cases acc <;> simp [List.argAux]

/-- C5.  `hit()` returns the intersection with the smallest nonnegative `t`
(ties resolved by input order: the earliest minimal element of the
nonnegative sublist wins) and `none` exactly when every `t` is negative. -/
theorem C5_hit_smallest_nonnegative (xs : List Intersection) :
    (hit xs = none ↔ ∀ i ∈ xs, i.t < 0) ∧
    ((∃ i ∈ xs, 0 ≤ i.t) → ∃ m, hit xs = some m) ∧
    ∀ m, hit xs = some m →
      m ∈ xs ∧ 0 ≤ m.t ∧ (∀ j ∈ xs, 0 ≤ j.t → m.t ≤ j.t) ∧
      ∀ j ∈ xs.filter (fun i => decide (0 ≤ i.t)), j.t ≤ m.t →
        (xs.filter fun i => decide (0 ≤ i.t)).indexOf m ≤
          (xs.filter fun i => decide (0 ≤ i.t)).indexOf j := by
  have ha := hit_eq_argmin xs
  have hnone : hit xs = none ↔ ∀ i ∈ xs, i.t < 0 := by
    rw [ha, List.argmin_eq_none, List.filter_eq_nil_iff]
    constructor
    · intro h i hi
      simpa [not_le] using h i hi
    · intro h i hi
      simpa [not_le] using h i hi
  refine ⟨hnone, ?_, ?_⟩
  · rintro ⟨i, hi, h0⟩
    cases hh : hit xs with
    | none => exact absurd h0 (not_le.mpr (hnone.mp hh i hi))
    | some m => exact ⟨m, rfl⟩
  · intro m hm
    rw [ha] at hm
    obtain ⟨h1, h2, h3⟩ := List.mem_argmin_iff.mp (Option.mem_def.mpr hm)
    have hmx : m ∈ xs ∧ 0 ≤ m.t := by simpa using List.mem_filter.mp h1
    refine ⟨hmx.1, hmx.2, ?_, ?_⟩
    · intro j hj h0
      exact h2 j (List.mem_filter.mpr ⟨hj, by simpa using h0⟩)
    · intro j hj hle
      exact h3 j hj hle

/-- C5 witness: on the list with t = 2, −1, 1 a nonnegative entry exists, so
`hit` returns a hit. -/
theorem C5_hit_smallest_nonnegative_witness : ∃ m, hit witnessHitList = some m :=
  (C5_hit_smallest_nonnegative witnessHitList).2.1
    ⟨⟨2, unitSphereRef⟩, by simp [witnessHitList], by norm_num⟩

/-- Helper: the `hit` fold over a NaN-free list never hits the panicking
comparator arm and its result is the initial accumulator or a list element,
itself NaN-free. -/
theorem hitN_fold (l : List IntersectionN) (hl : ∀ i ∈ l, i.t ≠ none) :
    ∀ acc : Option IntersectionN, (∀ m, acc = some m → m.t ≠ none) →
      ∃ r, l.foldlM hitNStep acc = .ok r ∧
        (r = acc ∨ ∃ i ∈ l, r = some i) ∧ ∀ m, r = some m → m.t ≠ none := by
  induction l with
  | nil =>
    intro acc hacc
    exact ⟨acc, rfl, Or.inl rfl, hacc⟩
  | cons x l ih =>
    intro acc hacc
    have hx : x.t ≠ none := hl x (by simp)
    have hl' : ∀ i ∈ l, i.t ≠ none := fun i hi => hl i (by simp [hi])
    have hxmem : ∀ m : IntersectionN, (some x : Option IntersectionN) = some m → m.t ≠ none := by
      intro m hm
      cases hm
      exact hx
    cases acc with
    | none =>
      obtain ⟨r, hr, hmem, hinv⟩ := ih hl' (some x) hxmem
      refine ⟨r, ?_, ?_, hinv⟩
      · simpa [List.foldlM_cons, hitNStep] using hr
      · rcases hmem with h | ⟨i, hi, hri⟩
        · exact Or.inr ⟨x, by simp, h⟩
        · exact Or.inr ⟨i, by simp [hi], hri⟩
    | some m =>
      have hm : m.t ≠ none := hacc m rfl
      obtain ⟨qm, hqm⟩ := Option.ne_none_iff_exists'.mp hm
      obtain ⟨qx, hqx⟩ := Option.ne_none_iff_exists'.mp hx
      have hcmp : pcmpF m.t x.t = some (compare qm qx) := by
        rw [hqm, hqx]
        rfl
      cases hc : compare qm qx with
      | gt =>
        obtain ⟨r, hr, hmem, hinv⟩ := ih hl' (some x) hxmem
        refine ⟨r, ?_, ?_, hinv⟩
        · simpa [List.foldlM_cons, hitNStep, hcmp, hc] using hr
        · rcases hmem with h | ⟨i, hi, hri⟩
          · exact Or.inr ⟨x, by simp, h⟩
          · exact Or.inr ⟨i, by simp [hi], hri⟩
      | lt =>
        obtain ⟨r, hr, hmem, hinv⟩ := ih hl' (some m) hacc
        refine ⟨r, ?_, ?_, hinv⟩
        · simpa [List.foldlM_cons, hitNStep, hcmp, hc] using hr
        · rcases hmem with h | ⟨i, hi, hri⟩
          · exact Or.inl h
          · exact Or.inr ⟨i, by simp [hi], hri⟩
      | eq =>
        obtain ⟨r, hr, hmem, hinv⟩ := ih hl' (some m) hacc
        refine ⟨r, ?_, ?_, hinv⟩
        · simpa [List.foldlM_cons, hitNStep, hcmp, hc] using hr
        · rcases hmem with h | ⟨i, hi, hri⟩
          · exact Or.inl h
          · exact Or.inr ⟨i, by simp [hi], hri⟩

/-- C9.  `hit` is total even on lists containing NaN `t` values: a NaN `t`
fails the `t >= 0.0` filter (it is treated like a miss, so dropping NaN
entries does not change the result), the `unwrap` inside `min_by` never
panics, and the result is `None` or an element of the input list. -/
theorem C9_hit_total_with_nan (xs : List IntersectionN) :
    (∃ r, hitN xs = .ok r ∧ (r = none ∨ ∃ i ∈ xs, r = some i)) ∧
    hitN xs = hitN (xs.filter fun i => decide (i.t ≠ none)) := by
  constructor
  · obtain ⟨r, hr, hmem, _⟩ := hitN_fold (xs.filter fun i => geZeroF i.t)
      (fun i hi => by
        have h2 := (List.mem_filter.mp hi).2
        cases h : i.t with
        | none => rw [h] at h2; simp [geZeroF] at h2
        | some q => simp [h])
      none (by simp)
    refine ⟨r, hr, ?_⟩
    rcases hmem with h | ⟨i, hi, hri⟩
    · exact Or.inl h
    · exact Or.inr ⟨i, (List.mem_filter.mp hi).1, hri⟩
  · unfold hitN
    have hfl : (xs.filter fun i => decide (i.t ≠ none)).filter (fun i => geZeroF i.t) =
        xs.filter fun i => geZeroF i.t := by
      rw [List.filter_filter]
      apply List.filter_congr
      intro a _
      cases h : a.t with
      | none => simp [geZeroF, h]
      | some q => simp [geZeroF, h]
    rw [hfl]

/-- Helper: `is_shadowed` either returns a boolean or panics on the missing
light; it has no other outcome. -/
theorem isShadowedE_cases (w : World) (p : Tuple4) :
    (∃ b, isShadowedE w p = .ok b) ∨ isShadowedE w p = .error .panicked := by
  unfold isShadowedE
  cases w.light with
  | none => exact Or.inr rfl
  | some light =>
    dsimp only
    split
    · exact Or.inl ⟨_, rfl⟩
    · exact Or.inl ⟨_, rfl⟩

/-- Helper: `reflected_color` is total (given the inductive hypothesis for
`color_at` at the same fuel) and returns the counter it was given. -/
theorem reflectedColorS_total (fuel : Nat) (w : World) (comps : Computations) (k : Nat)
    (ih : ∀ (w' : World) (r' : Ray) (d' : Nat), 5 - d' < fuel →
      (∃ c, colorAtS fuel w' r' d' = .ok (c, d')) ∨ colorAtS fuel w' r' d' = .error .panicked)
    (hk : 5 - k < fuel) :
    (∃ c, reflectedColorS fuel w comps k = .ok (c, k)) ∨
      reflectedColorS fuel w comps k = .error .panicked := by
  unfold reflectedColorS
  split
  · exact Or.inl ⟨_, rfl⟩
  · rcases ih w ⟨comps.over_point, comps.reflectv⟩ k hk with ⟨c, hc⟩ | hc
    · rw [hc]
      exact Or.inl ⟨_, rfl⟩
    · rw [hc]
      exact Or.inr rfl

/-- Helper: `refracted_color` is total (given the inductive hypothesis for
`color_at` at the same fuel) and returns the counter it was given. -/
theorem refractedColorS_total (fuel : Nat) (w : World) (comps : Computations) (k : Nat)
    (ih : ∀ (w' : World) (r' : Ray) (d' : Nat), 5 - d' < fuel →
      (∃ c, colorAtS fuel w' r' d' = .ok (c, d')) ∨ colorAtS fuel w' r' d' = .error .panicked)
    (hk : 5 - k < fuel) :
    (∃ c, refractedColorS fuel w comps k = .ok (c, k)) ∨
      refractedColorS fuel w comps k = .error .panicked := by
  unfold refractedColorS
  split
  · exact Or.inl ⟨_, rfl⟩
  · dsimp only
    split
    · exact Or.inl ⟨_, rfl⟩
    · rcases ih w ⟨comps.under_point, _⟩ k hk with ⟨c, hc⟩ | hc
      · rw [hc]
        exact Or.inl ⟨_, rfl⟩
      · rw [hc]
        exact Or.inr rfl

/-- Helper: `shade_hit` is total given the inductive hypothesis for
`color_at` at the same fuel: it either produces a color or panics on a
missing light. -/
theorem shadeHitS_total (fuel : Nat) (w : World) (comps : Computations) (k : Nat)
    (ih : ∀ (w' : World) (r' : Ray) (d' : Nat), 5 - d' < fuel →
      (∃ c, colorAtS fuel w' r' d' = .ok (c, d')) ∨ colorAtS fuel w' r' d' = .error .panicked)
    (hk : 5 - k < fuel) :
    (∃ c q, shadeHitS fuel w comps k = .ok (c, q)) ∨
      shadeHitS fuel w comps k = .error .panicked := by
  unfold shadeHitS
  cases w.light with
  | none => exact Or.inr rfl
  | some light =>
    dsimp only
    rcases isShadowedE_cases w comps.over_point with ⟨b, hb⟩ | hb
    · rw [hb]
      dsimp only
      rcases reflectedColorS_total fuel w comps k ih hk with ⟨c1, h1⟩ | h1
      · rw [h1]
        dsimp only
        rcases refractedColorS_total fuel w comps k ih hk with ⟨c2, h2⟩ | h2
        · rw [h2]
          dsimp only
          split
          · exact Or.inl ⟨_, _, rfl⟩
          · exact Or.inl ⟨_, _, rfl⟩
        · rw [h2]
          exact Or.inr rfl
      · rw [h1]
        exact Or.inr rfl
    · rw [hb]
      exact Or.inr rfl

/-- Helper: with fuel exceeding `5 − depth`, `color_at` never exhausts its
fuel: it returns a color with the counter restored, or panics on a missing
light. -/
theorem colorAtS_total (fuel : Nat) :
    ∀ (w : World) (r : Ray) (d : Nat), 5 - d < fuel →
      (∃ c, colorAtS fuel w r d = .ok (c, d)) ∨ colorAtS fuel w r d = .error .panicked := by
  induction fuel with
  | zero =>
    intro w r d h
    exact absurd h (Nat.not_lt_zero _)
  | succ fu ih =>
    intro w r d h
    by_cases h5 : 5 ≤ d
    · left
      exact ⟨COLOR_BLACK, by unfold colorAtS; rw [if_pos h5]⟩
    · have hfu : 5 - (d + 1) < fu := by omega
      unfold colorAtS
      rw [if_neg h5]
      dsimp only
      cases hh : hit (w.intersect r) with
      | none =>
        exact Or.inl ⟨COLOR_BLACK, rfl⟩
      | some i =>
        dsimp only
        rcases shadeHitS_total fu w (prepareComputations i r (some (w.intersect r))) (d + 1) ih hfu
          with ⟨c, q, hq⟩ | hq
        · rw [hq]
          exact Or.inl ⟨c, rfl⟩
        · rw [hq]
          exact Or.inr rfl

/-- Helper: the mutually-reflective-planes world yields no intersections for
the straight-up ray (the snapshot's `Plane::local_intersect` returns no hits
for any ray). -/
theorem mirrorWorld_intersect_empty : mirrorWorld.intersect rayUp = [] := by
  simp [World.intersect, World.shapeRefs, mirrorWorld, World.withLight, lowerMirror,
    upperMirror, ShapeRef.intersect, ShapeRef.localIntersect, List.enum, List.enumFrom]

/-- C7.  `color_at` terminates for every world, ray and starting depth (any
fuel above `5 − depth` suffices; the only other outcome is the
missing-light panic, which is a crash, not divergence); whenever it returns,
the returned counter equals the entry counter, so sibling calls see the
correct depth; once the counter has reached the bound 5 it returns black
immediately for every world — in particular without intersecting it; and the
two mutually-reflective-planes scenario terminates with a finite color
(black, with the counter restored to 0). -/
theorem C7_color_at_recursion_bound (w : World) (r : Ray) (d fuel : Nat) (hfuel : 5 - d < fuel) :
    ((∃ c, colorAtS fuel w r d = .ok (c, d)) ∨ colorAtS fuel w r d = .error .panicked) ∧
    (5 ≤ d → colorAtS fuel w r d = .ok (COLOR_BLACK, d)) ∧
    colorAtS 6 mirrorWorld rayUp 0 = .ok (COLOR_BLACK, 0) := by
  refine ⟨colorAtS_total fuel w r d hfuel, ?_, ?_⟩
  · intro h5
    obtain ⟨fu, rfl⟩ : ∃ fu, fuel = fu + 1 := ⟨fuel - 1, by omega⟩
    unfold colorAtS
    rw [if_pos h5]
  · unfold colorAtS
    rw [if_neg (by norm_num)]
    dsimp only
    rw [mirrorWorld_intersect_empty]
    rfl

/-- C7 witness: instantiated at the mirror scenario with depth 0 and fuel 6. -/
theorem C7_color_at_recursion_bound_witness :
    ((∃ c, colorAtS 6 mirrorWorld rayUp 0 = .ok (c, 0)) ∨
      colorAtS 6 mirrorWorld rayUp 0 = .error .panicked) ∧
    (5 ≤ 0 → colorAtS 6 mirrorWorld rayUp 0 = .ok (COLOR_BLACK, 0)) ∧
    colorAtS 6 mirrorWorld rayUp 0 = .ok (COLOR_BLACK, 0) :=
  C7_color_at_recursion_bound mirrorWorld rayUp 0 6 (by omega)

set_option maxHeartbeats 1000000 in
/-- Helper: multiplying by the transposed cofactor matrix gives the
determinant times the identity (Laplace expansion and the alien-cofactor
identities, all sixteen entries). -/
theorem m4_mul_adjT (m : M4) : m.mul m.adjT = M4.smulM m.det M4.identity := by
  ext <;>
    simp only [M4.mul, M4.adjT, M4.smulM, M4.det, M4.identity,
      M4.cof00, M4.cof01, M4.cof02, M4.cof03, M4.cof10, M4.cof11, M4.cof12, M4.cof13, M4.cof20, M4.cof21, M4.cof22, M4.cof23, M4.cof30, M4.cof31, M4.cof32, M4.cof33,
      M4.minor00, M4.minor01, M4.minor02, M4.minor03, M4.minor10, M4.minor11, M4.minor12, M4.minor13, M4.minor20, M4.minor21, M4.minor22, M4.minor23, M4.minor30, M4.minor31, M4.minor32, M4.minor33, det3] <;>
    ring

set_option maxHeartbeats 1000000 in
/-- Helper: the transposed cofactor matrix also works from the left. -/
theorem m4_adjT_mul (m : M4) : m.adjT.mul m = M4.smulM m.det M4.identity := by
  ext <;>
    simp only [M4.mul, M4.adjT, M4.smulM, M4.det, M4.identity,
      M4.cof00, M4.cof01, M4.cof02, M4.cof03, M4.cof10, M4.cof11, M4.cof12, M4.cof13, M4.cof20, M4.cof21, M4.cof22, M4.cof23, M4.cof30, M4.cof31, M4.cof32, M4.cof33,
      M4.minor00, M4.minor01, M4.minor02, M4.minor03, M4.minor10, M4.minor11, M4.minor12, M4.minor13, M4.minor20, M4.minor21, M4.minor22, M4.minor23, M4.minor30, M4.minor31, M4.minor32, M4.minor33, det3] <;>
    ring

/-- Helper: `inverse` is the transposed cofactor matrix scaled by the inverse
determinant. -/
theorem m4_inverse_eq (m : M4) : m.inverse = M4.smulM m.det⁻¹ m.adjT := by
  ext <;> simp [M4.inverse, M4.adjT, M4.smulM, div_eq_mul_inv, mul_comm]

/-- Helper: scalar multiples pull out of a product on the right. -/
theorem m4_mul_smul (q : ℚ) (m n : M4) : m.mul (M4.smulM q n) = M4.smulM q (m.mul n) := by
  ext <;> simp [M4.mul, M4.smulM] <;> ring

/-- Helper: scalar multiples pull out of a product on the left. -/
theorem m4_smul_mul (q : ℚ) (m n : M4) : (M4.smulM q n).mul m = M4.smulM q (n.mul m) := by
  ext <;> simp [M4.mul, M4.smulM] <;> ring

/-- Helper: scalar multiples compose. -/
theorem m4_smul_smul (p q : ℚ) (m : M4) : M4.smulM p (M4.smulM q m) = M4.smulM (p * q) m := by
  ext <;> simp [M4.smulM] <;> ring

/-- Helper: the scalar 1 acts trivially. -/
theorem m4_smul_one (m : M4) : M4.smulM 1 m = m := by
  ext <;> simp [M4.smulM]

/-- Helper: the identity matrix is a right unit. -/
theorem m4_mul_id_right (m : M4) : m.mul M4.identity = m := by
  ext <;> simp [M4.mul, M4.identity]

/-- Helper: the identity matrix is a left unit. -/
theorem m4_mul_id_left (m : M4) : M4.identity.mul m = m := by
  ext <;> simp [M4.mul, M4.identity]

/-- Helper: matrix multiplication is associative. -/
theorem m4_mul_assoc (a b c : M4) : (a.mul b).mul c = a.mul (b.mul c) := by
  ext <;> simp [M4.mul] <;> ring

/-- Helper: `M * M.inverse() = identity` for invertible `M`. -/
theorem m4_mul_inverse_right (m : M4) (h : m.det ≠ 0) : m.mul m.inverse = M4.identity := by
  rw [m4_inverse_eq, m4_mul_smul, m4_mul_adjT, m4_smul_smul, inv_mul_cancel₀ h, m4_smul_one]

/-- Helper: `M.inverse() * M = identity` for invertible `M`. -/
theorem m4_mul_inverse_left (m : M4) (h : m.det ≠ 0) : m.inverse.mul m = M4.identity := by
  rw [m4_inverse_eq, m4_smul_mul, m4_adjT_mul, m4_smul_smul, inv_mul_cancel₀ h, m4_smul_one]

set_option maxHeartbeats 4000000 in
/-- Helper: the determinant is multiplicative. -/
theorem m4_det_mul (a b : M4) : (a.mul b).det = a.det * b.det := by
  simp only [M4.mul, M4.det,
    M4.cof00, M4.cof01, M4.cof02, M4.cof03,
    M4.minor00, M4.minor01, M4.minor02, M4.minor03, det3]
  ring

/-- Helper: the identity matrix has determinant 1. -/
theorem m4_det_identity : M4.identity.det = 1 := by
  norm_num [M4.det, M4.identity,
    M4.cof00, M4.cof01, M4.cof02, M4.cof03,
    M4.minor00, M4.minor01, M4.minor02, M4.minor03, det3]

/-- Helper: the inverse of an invertible matrix has nonzero determinant. -/
theorem m4_det_inverse_ne_zero (m : M4) (h : m.det ≠ 0) : m.inverse.det ≠ 0 := by
  have h1 : m.inverse.det * m.det = 1 := by
    rw [← m4_det_mul, m4_mul_inverse_left m h, m4_det_identity]
  intro h0
  rw [h0, zero_mul] at h1
  simp at h1

/-- C8.  For every 4×4 matrix with nonzero determinant, multiplying by the
cofactor/determinant inverse gives the identity, and inverting twice gives
the matrix back (over the exact rational model the claimed approximate
identities hold exactly). -/
theorem C8_matrix_inverse_involutive (m : M4) (h : m.det ≠ 0) :
    m.mul m.inverse = M4.identity ∧ m.inverse.inverse = m := by
  refine ⟨m4_mul_inverse_right m h, ?_⟩
  have h2 := m4_det_inverse_ne_zero m h
  calc m.inverse.inverse = M4.identity.mul m.inverse.inverse := (m4_mul_id_left _).symm
    _ = (m.mul m.inverse).mul m.inverse.inverse := by rw [m4_mul_inverse_right m h]
    _ = m.mul (m.inverse.mul m.inverse.inverse) := m4_mul_assoc m m.inverse m.inverse.inverse
    _ = m.mul M4.identity := by rw [m4_mul_inverse_right m.inverse h2]
    _ = m := m4_mul_id_right m

/-- C8 witness: instantiated at the invertible matrix `translation(5,-3,2)`
(determinant 1). -/
theorem C8_matrix_inverse_involutive_witness :
    witnessMatrix.mul witnessMatrix.inverse = M4.identity ∧
    witnessMatrix.inverse.inverse = witnessMatrix :=
  C8_matrix_inverse_involutive witnessMatrix
    (by norm_num [witnessMatrix, translation, M4.det,
      M4.cof00, M4.cof01, M4.cof02, M4.cof03,
    M4.minor00, M4.minor01, M4.minor02, M4.minor03, det3])
